import Mathlib

/-!
Shallow embedding of the two Go services of docker-network-virtualization:
the User Service (`src/unnamed/part_000`) and the Post Service
(`src/post/main.go`).

Each HTTP handler becomes a pure function from the request data, the
current collection contents and the outcomes of the external effects
(Mongo driver operations, the HTTP exchange with the User Service) to a
status code, a response body and the new collection contents.  Mongo
operations that can fail carry an explicit error-injection parameter
(`Option String`); when it is `none` the operation behaves as the list
semantics of the collection dictates.
-/

/-- A hex digit as accepted by Go's `encoding/hex` (both letter cases). -/
def isHexChar (c : Char) : Bool :=
  (decide ('0' ≤ c) && decide (c ≤ '9')) ||
  (decide ('a' ≤ c) && decide (c ≤ 'f')) ||
  (decide ('A' ≤ c) && decide (c ≤ 'F'))

/-- Validity of a Mongo ObjectID hex string: exactly 24 hex characters,
the strings `primitive.ObjectIDFromHex` accepts. -/
def validObjectIDHex (s : String) : Bool :=
  s.length == 24 && s.data.all isHexChar

/-- A Mongo ObjectID, carried as its 24-character hex form. -/
def ObjectID := { s : String // validObjectIDHex s = true }

instance : DecidableEq ObjectID := fun a b =>
  if h : a.val = b.val then Decidable.isTrue (Subtype.ext h)
  else Decidable.isFalse (fun hh => h (congrArg Subtype.val hh))

/-- `primitive.ObjectIDFromHex`: parse the 24-character hex form of an
ObjectID, returning an error for every other string. -/
def ObjectIDFromHex (s : String) : Except String ObjectID :=
  if h : validObjectIDHex s = true then Except.ok ⟨s, h⟩
  else Except.error "the provided hex string is not a valid ObjectID"

/-- The `User` struct of the User Service (`_id`, `name`).  `createUser`
always assigns the id before inserting, so stored documents carry one. -/
structure User where
  ID : ObjectID
  Name : String
deriving DecidableEq

/-- The `Post` struct of the Post Service (`_id` with omitempty, `user_id`,
`title`, `content`).  `ID = none` models the zero ObjectID omitted on
insert. -/
structure Post where
  ID : Option ObjectID
  UserID : String
  Title : String
  Content : String
deriving DecidableEq

namespace UserService

/-- `userCollection.CountDocuments(ctx, bson.M{"_id": objID})`: the number
of stored users whose id matches. -/
def countDocuments (users : List User) (oid : ObjectID) : Nat :=
  (users.filter (fun u => decide (u.ID = oid))).length

/-- `userCollection.DeleteOne(ctx, bson.M{"_id": objID})`: Mongo's
DeleteOne removes at most one matching document; the pair is the new
collection contents and the `DeletedCount`. -/
def deleteOne (users : List User) (oid : ObjectID) : List User × Nat :=
  match users with
  | [] => ([], 0)
  | u :: rest =>
    if u.ID = oid then (rest, 1)
    else
      let r := deleteOne rest oid
      (u :: r.1, r.2)

/-- Outcome of the existence-check handler: status plus, on 200, the
`{"id": idParam, "exists": count > 0}` body. -/
structure OracleResult where
  status : Nat
  body : Option (String × Bool)
deriving DecidableEq

/-- `checkUserExists` handler of the User Service: parse the `:id` path
parameter (400 with the parse error on failure, before any store call),
count matching documents (500 on a store error), and answer 200 with the
echoed id and `count > 0`. -/
def checkUserExists (users : List User) (idParam : String)
    (countErr : Option String) : OracleResult :=
  match ObjectIDFromHex idParam with
  | Except.error _ => ⟨400, none⟩
  | Except.ok oid =>
    match countErr with
    | some _ => ⟨500, none⟩
    | none => ⟨200, some (idParam, decide (countDocuments users oid > 0))⟩

/-- Outcome of the delete-user handler: status plus the collection after
the request. -/
structure DeleteUserResult where
  status : Nat
  store : List User
deriving DecidableEq

/-- `deleteUser` handler: parse the `:id` path parameter (400 before any
store call), DeleteOne (500 on a store error), 404 when `DeletedCount`
is 0, else 200. -/
def deleteUser (users : List User) (idParam : String)
    (deleteErr : Option String) : DeleteUserResult :=
  match ObjectIDFromHex idParam with
  | Except.error _ => ⟨400, users⟩
  | Except.ok oid =>
    match deleteErr with
    | some _ => ⟨500, users⟩
    | none =>
      let r := deleteOne users oid
      if r.2 = 0 then ⟨404, r.1⟩ else ⟨200, r.1⟩

/-- Outcome of the create-user handler: status, the collection after the
request and, on 201, the returned created user. -/
structure CreateUserResult where
  status : Nat
  store : List User
  body : Option User
deriving DecidableEq

/-- `createUser` handler: bind the JSON body (400 on failure), overwrite
the id with a fresh `primitive.NewObjectID()` (passed in as `newOid`),
insert (500 on a store error) and return the created user with 201. -/
def createUser (users : List User) (bindResult : Except String User)
    (newOid : ObjectID) (insertErr : Option String) : CreateUserResult :=
  match bindResult with
  | Except.error _ => ⟨400, users, none⟩
  | Except.ok bound =>
    let newUser : User := { bound with ID := newOid }
    match insertErr with
    | some _ => ⟨500, users, none⟩
    | none => ⟨201, users ++ [newUser], some newUser⟩

end UserService

namespace PostService

/-- The body of an HTTP response as seen by `json.NewDecoder(...).Decode`
into `struct { ID string; Exists bool }`: a JSON object carrying the
(optional) `id` and `exists` fields — Go's decoder ignores unknown fields
and leaves absent fields at their zero values — or a body on which the
decoder fails, carrying the decode error message. -/
inductive JsonBody where
  | object (idField : Option String) (existsField : Option Bool)
  | notDecodable (errMsg : String)
deriving DecidableEq

/-- Decoding a response body into the `{id, exists}` struct, with Go's
zero-value semantics for absent fields. -/
def decodeUserExistsBody : JsonBody → Except String (String × Bool)
  | JsonBody.object i e => Except.ok (i.getD "", e.getD false)
  | JsonBody.notDecodable msg => Except.error msg

/-- `checkUserExists` of the Post Service (the Verification Client):
`http.Get` either fails with a transport error (returned as the error) or
yields a response, of which ONLY the body is examined — the status code is
never inspected.  A decode failure is returned as the error; otherwise the
decoded `Exists` boolean is returned with a nil error. -/
def checkUserExists (httpResult : Except String (Nat × JsonBody)) :
    Except String Bool :=
  match httpResult with
  | Except.error e => Except.error e
  | Except.ok r =>
    match decodeUserExistsBody r.2 with
    | Except.error e => Except.error e
    | Except.ok decoded => Except.ok decoded.2

/-- The HTTP request issued by the Verification Client: its URL and the
deadline bounding the call, if any. -/
structure HttpGetCall where
  url : String
  timeoutMillis : Option Nat
deriving DecidableEq

/-- The call `http.Get(fmt.Sprintf("%s/users/exists/%s", userServiceURL,
userID))`: `http.Get` uses `http.DefaultClient`, whose `Timeout` is the
zero value (no deadline), and `checkUserExists` does not thread the
handler's 5-second context into the request, so no deadline of any kind is
attached to the exchange. -/
def checkUserExistsRequest (userServiceURL userID : String) : HttpGetCall :=
  ⟨userServiceURL ++ "/users/exists/" ++ userID, none⟩

/-- Serialization of the Oracle's 200 body `{"id": ..., "exists": ...}` as
the Verification Client's decoder sees it. -/
def oracleWire : Option (String × Bool) → JsonBody
  | some p => JsonBody.object (some p.1) (some p.2)
  | none => JsonBody.notDecodable "no body"

/-- Outcome of the create-post handler: status, the post collection after
the request and, on 201, the returned created post. -/
structure CreatePostResult where
  status : Nat
  store : List Post
  body : Option Post
deriving DecidableEq

/-- `createPost` handler: bind the JSON body (400 on failure), call the
Verification Client (502 on error, 404 on a definitive false — in both
cases before any store operation), then InsertOne (500 on a store error),
assign the id from `result.InsertedID` and answer 201 with the stored
record. -/
def createPost (store : List Post) (bindResult : Except String Post)
    (verify : Except String Bool) (insertResult : Except String ObjectID) :
    CreatePostResult :=
  match bindResult with
  | Except.error _ => ⟨400, store, none⟩
  | Except.ok newPost =>
    match verify with
    | Except.error _ => ⟨502, store, none⟩
    | Except.ok userOk =>
      if !userOk then ⟨404, store, none⟩
      else
        match insertResult with
        | Except.error _ => ⟨500, store, none⟩
        | Except.ok oid =>
          let stored : Post := { newPost with ID := some oid }
          ⟨201, store ++ [stored], some stored⟩

/-- `postCollection.Find(ctx, bson.M{"user_id": userID})` followed by
`cursor.All`: the stored posts whose owning-user id matches. -/
def findPostsByUser (store : List Post) (userID : String) : List Post :=
  store.filter (fun p => decide (p.UserID = userID))

/-- Outcome of the list-by-user handler: status plus, on 200, the
`{"user_id": ..., "posts": ...}` body. -/
structure ListPostsResult where
  status : Nat
  body : Option (String × List Post)
deriving DecidableEq

/-- `getPostsByUserID` handler: call the Verification Client on the
`:userID` path parameter (502 on error, 404 on false, both before any
store query), then Find (500 on a store error), decode the cursor (500 on
failure) and answer 200 with the user id and its posts. -/
def getPostsByUserID (store : List Post) (userID : String)
    (verify : Except String Bool) (findErr : Option String)
    (decodeErr : Bool) : ListPostsResult :=
  match verify with
  | Except.error _ => ⟨502, none⟩
  | Except.ok userOk =>
    if !userOk then ⟨404, none⟩
    else
      match findErr with
      | some _ => ⟨500, none⟩
      | none =>
        if decodeErr then ⟨500, none⟩
        else ⟨200, some (userID, findPostsByUser store userID)⟩

/-- `postCollection.DeleteOne(ctx, bson.M{"_id": objID})`: removes at most
one matching document; the pair is the new collection contents and the
`DeletedCount`. -/
def deleteOne (store : List Post) (oid : ObjectID) : List Post × Nat :=
  match store with
  | [] => ([], 0)
  | p :: rest =>
    if p.ID = some oid then (rest, 1)
    else
      let r := deleteOne rest oid
      (p :: r.1, r.2)

/-- Outcome of the delete-post handler: status plus the collection after
the request. -/
structure DeletePostResult where
  status : Nat
  store : List Post
deriving DecidableEq

/-- `deletePost` handler: parse the `:postID` path parameter (400 with the
parse error, before any store call — and with no user verification of any
kind), DeleteOne (500 on a store error), 404 when `DeletedCount` is 0,
else 200. -/
def deletePost (store : List Post) (postID : String)
    (deleteErr : Option String) : DeletePostResult :=
  match ObjectIDFromHex postID with
  | Except.error _ => ⟨400, store⟩
  | Except.ok oid =>
    match deleteErr with
    | some _ => ⟨500, store⟩
    | none =>
      let r := deleteOne store oid
      if r.2 = 0 then ⟨404, r.1⟩ else ⟨200, r.1⟩

/-- The number of stored posts whose id matches — Mongo keeps `_id` unique,
so in reachable states this is at most 1. -/
def countPostsWithID (store : List Post) (oid : ObjectID) : Nat :=
  (store.filter (fun p => decide (p.ID = some oid))).length

end PostService

/-! Sample concrete values used by the witnesses. -/

def sampleHex : String := "0123456789abcdef01234567"

def sampleOid : ObjectID := ⟨sampleHex, by decide⟩

def samplePost : Post := ⟨none, sampleHex, "T", "C"⟩

def samplePostStored : Post := ⟨some sampleOid, sampleHex, "T", "C"⟩

namespace PostService

/-- C1: when the Verification Client returns a transport error or a decode
error, `createPost` answers 502 and the post collection is unchanged (no
insert happens, whatever `insertResult` would have been). -/
theorem createPost_verify_error_502 :
    ∀ (store : List Post) (p : Post) (ins : Except String ObjectID)
      (tmsg : String) (st : Nat) (dmsg : String),
    createPost store (Except.ok p) (checkUserExists (Except.error tmsg)) ins
      = ⟨502, store, none⟩ ∧
    createPost store (Except.ok p)
      (checkUserExists (Except.ok (st, JsonBody.notDecodable dmsg))) ins
      = ⟨502, store, none⟩ := by
  intro store p ins tmsg st dmsg
  exact ⟨rfl, rfl⟩

/-- C2: when verification reports `exists = false`, `createPost` answers
404 with the collection unchanged; only on `exists = true` does the insert
happen — and then the stored record carries the id returned by the store
and is answered with 201, while a failing insert leaves the collection
unchanged with a 500. -/
theorem createPost_verified_branches :
    ∀ (store : List Post) (p : Post) (ins : Except String ObjectID)
      (oid : ObjectID) (emsg : String),
    createPost store (Except.ok p) (Except.ok false) ins
      = ⟨404, store, none⟩ ∧
    createPost store (Except.ok p) (Except.ok true) (Except.ok oid)
      = ⟨201, store ++ [{ p with ID := some oid }],
          some { p with ID := some oid }⟩ ∧
    createPost store (Except.ok p) (Except.ok true) (Except.error emsg)
      = ⟨500, store, none⟩ := by
  intro store p ins oid emsg
  exact ⟨rfl, rfl, rfl⟩

/-- C3: the Verification Client returns the decoded boolean with no error
on a successful exchange, and a non-nil error on a transport or decode
failure; at the caller the error path (502) and the `exists = false` path
(404) are distinct outcomes. -/
theorem checkUserExists_error_channels :
    ∀ (st : Nat) (i : Option String) (e : Option Bool) (tmsg dmsg : String)
      (store : List Post) (p : Post) (ins : Except String ObjectID),
    checkUserExists (Except.ok (st, JsonBody.object i e))
      = Except.ok (e.getD false) ∧
    checkUserExists (Except.error tmsg) = Except.error tmsg ∧
    checkUserExists (Except.ok (st, JsonBody.notDecodable dmsg))
      = Except.error dmsg ∧
    (createPost store (Except.ok p) (Except.error tmsg) ins).status = 502 ∧
    (createPost store (Except.ok p) (Except.ok false) ins).status = 404 := by
  intro st i e tmsg dmsg store p ins
  exact ⟨rfl, rfl, rfl, rfl, rfl⟩

/-- C4: the Verification Client never inspects the HTTP status code: the
result only depends on the body, and an oracle error response (e.g. a 400
or 500 whose body is a JSON object without an `exists` field) decodes to
`exists = false` with no error, so `createPost` and `getPostsByUserID`
answer 404 for it rather than 502 or a propagated 400/500. -/
theorem checkUserExists_ignores_status :
    ∀ (s1 s2 : Nat) (body : JsonBody) (i : Option String)
      (store : List Post) (p : Post) (ins : Except String ObjectID)
      (userID : String) (fe : Option String) (de : Bool),
    checkUserExists (Except.ok (s1, body))
      = checkUserExists (Except.ok (s2, body)) ∧
    checkUserExists (Except.ok (400, JsonBody.object i none))
      = Except.ok false ∧
    checkUserExists (Except.ok (500, JsonBody.object i none))
      = Except.ok false ∧
    (createPost store (Except.ok p)
      (checkUserExists (Except.ok (400, JsonBody.object i none))) ins).status
      = 404 ∧
    (createPost store (Except.ok p)
      (checkUserExists (Except.ok (500, JsonBody.object i none))) ins).status
      = 404 ∧
    (getPostsByUserID store userID
      (checkUserExists (Except.ok (500, JsonBody.object i none)))
      fe de).status = 404 := by
  intro s1 s2 body i store p ins userID fe de
  exact ⟨rfl, rfl, rfl, rfl, rfl, rfl⟩

/-- Unfolding `countPostsWithID` over a cons cell. -/
theorem countPostsWithID_cons (p : Post) (rest : List Post) (oid : ObjectID) :
    countPostsWithID (p :: rest) oid
      = (if p.ID = some oid then 1 else 0) + countPostsWithID rest oid := by
  by_cases hp : p.ID = some oid <;>
    simp [countPostsWithID, List.filter_cons, hp, Nat.add_comm]

/-- `DeleteOne` on a collection with no matching document leaves it
unchanged and reports `DeletedCount = 0`. -/
theorem deleteOne_of_count_zero :
    ∀ (store : List Post) (oid : ObjectID),
    countPostsWithID store oid = 0 → deleteOne store oid = (store, 0) := by
  intro store oid
  induction store with
  | nil => intro _; rfl
  | cons p rest ih =>
    intro h
    have hp : ¬ (p.ID = some oid) := by
      intro hp
      simp [countPostsWithID, List.filter_cons, hp] at h
    have hrest : countPostsWithID rest oid = 0 := by
      simpa [countPostsWithID, List.filter_cons, hp] using h
    simp [deleteOne, hp, ih hrest]

/-- `DeleteOne` removes exactly one matching document when one is there. -/
theorem countPostsWithID_deleteOne :
    ∀ (store : List Post) (oid : ObjectID),
    countPostsWithID (deleteOne store oid).1 oid
      = countPostsWithID store oid - 1 := by
  intro store oid
  induction store with
  | nil => rfl
  | cons p rest ih =>
    by_cases hp : p.ID = some oid
    · have h1 := countPostsWithID_cons p rest oid
      rw [if_pos hp] at h1
      simp [deleteOne, hp, h1]
    · have h1 := countPostsWithID_cons p rest oid
      rw [if_neg hp] at h1
      have h2 := countPostsWithID_cons p (deleteOne rest oid).1 oid
      rw [if_neg hp] at h2
      simp only [deleteOne, hp, if_false, ite_false]
      rw [h2, h1, ih]
      omega

/-- The `DeletedCount` of `DeleteOne` is 1 exactly when a document
matches. -/
theorem deleteOne_snd :
    ∀ (store : List Post) (oid : ObjectID),
    (deleteOne store oid).2
      = if countPostsWithID store oid = 0 then 0 else 1 := by
  intro store oid
  induction store with
  | nil => rfl
  | cons p rest ih =>
    by_cases hp : p.ID = some oid
    · have h1 := countPostsWithID_cons p rest oid
      rw [if_pos hp] at h1
      simp [deleteOne, hp, h1]
    · have h1 := countPostsWithID_cons p rest oid
      rw [if_neg hp] at h1
      simp [deleteOne, hp, h1, ih]

/-- `deletePost` on an id that matches nothing: 404, collection kept. -/
theorem deletePost_of_count_zero :
    ∀ (store : List Post) (postID : String) (oid : ObjectID),
    ObjectIDFromHex postID = Except.ok oid →
    countPostsWithID store oid = 0 →
    deletePost store postID none = ⟨404, store⟩ := by
  intro store postID oid hparse h0
  unfold deletePost
  rw [hparse]
  simp [deleteOne_of_count_zero store oid h0]

/-- C9: deletion is keyed by the post id alone (no verification input
exists in `deletePost` at all) and its error outcome is idempotent: an id
matching no document gets 404 with the collection unchanged, a 500 can
only come from a store-level delete error, and — as long as the Mongo
`_id` unique index holds, i.e. at most one document matches — deleting the
same id twice answers 404 the second time, never 500. -/
theorem deletePost_idempotent :
    ∀ (store : List Post) (postID : String) (oid : ObjectID)
      (deleteErr : Option String),
    ObjectIDFromHex postID = Except.ok oid →
    (countPostsWithID store oid = 0 →
      deletePost store postID none = ⟨404, store⟩) ∧
    ((deletePost store postID deleteErr).status = 500 → deleteErr ≠ none) ∧
    (countPostsWithID store oid ≤ 1 →
      (deletePost (deletePost store postID none).store postID none).status
        = 404) := by
  intro store postID oid deleteErr hparse
  refine ⟨fun h0 => deletePost_of_count_zero store postID oid hparse h0, ?_, ?_⟩
  · intro h500 hnone
    subst hnone
    unfold deletePost at h500
    rw [hparse] at h500
    by_cases hz : (deleteOne store oid).2 = 0
    · simp [hz] at h500
    · simp [hz] at h500
  · intro hle
    by_cases h0 : countPostsWithID store oid = 0
    · rw [deletePost_of_count_zero store postID oid hparse h0]
      show (deletePost store postID none).status = 404
      rw [deletePost_of_count_zero store postID oid hparse h0]
    · have h1 : countPostsWithID store oid = 1 :=
        Nat.le_antisymm hle (Nat.one_le_iff_ne_zero.mpr h0)
      have hsnd := deleteOne_snd store oid
      rw [if_neg h0] at hsnd
      have hfirst : deletePost store postID none
          = ⟨200, (deleteOne store oid).1⟩ := by
        unfold deletePost
        rw [hparse]
        simp [hsnd]
      rw [hfirst]
      have hc : countPostsWithID (deleteOne store oid).1 oid = 0 := by
        rw [countPostsWithID_deleteOne, h1]
      show (deletePost (deleteOne store oid).1 postID none).status = 404
      rw [deletePost_of_count_zero (deleteOne store oid).1 postID oid hparse hc]

/-- Witness for C9: on a one-post collection, deleting the same id a
second time answers 404; on an empty collection the first delete already
answers 404 with the collection unchanged; and a 500 implies a store
error was injected. -/
theorem deletePost_idempotent_witness :
    deletePost [] sampleHex none = ⟨404, []⟩ ∧
    (some "boom" : Option String) ≠ none ∧
    (deletePost (deletePost [samplePostStored] sampleHex none).store
      sampleHex none).status = 404 :=
  ⟨(deletePost_idempotent [] sampleHex sampleOid none rfl).1 rfl,
   (deletePost_idempotent [samplePostStored] sampleHex sampleOid
      (some "boom") rfl).2.1 rfl,
   (deletePost_idempotent [samplePostStored] sampleHex sampleOid none
      rfl).2.2 (by decide)⟩

/-- C6: `getPostsByUserID` answers 404 whenever verification reports
`exists = false`, for EVERY post-collection content and store outcome (so
never an empty 200 list, and no store query can influence the answer);
composed with the Oracle, once the user is gone from the user collection a
list-by-user request answers 404 even when posts referencing the user are
still stored. -/
theorem getPostsByUserID_gate :
    ∀ (users : List User) (uid : String) (oid : ObjectID)
      (store : List Post) (fe : Option String) (de : Bool),
    ObjectIDFromHex uid = Except.ok oid →
    UserService.countDocuments users oid = 0 →
    getPostsByUserID store uid (Except.ok false) fe de = ⟨404, none⟩ ∧
    getPostsByUserID store uid
      (checkUserExists (Except.ok (200,
        oracleWire (UserService.checkUserExists users uid none).body))) fe de
      = ⟨404, none⟩ := by
  intro users uid oid store fe de hparse hcount
  have horacle : UserService.checkUserExists users uid none
      = ⟨200, some (uid, false)⟩ := by
    unfold UserService.checkUserExists
    rw [hparse]
    simp [hcount]
  refine ⟨rfl, ?_⟩
  rw [horacle]
  rfl

/-- Witness for C6: with an empty user collection and one stored post
referencing the queried user, both the direct gate and the composed
oracle-plus-client pipeline answer 404. -/
theorem getPostsByUserID_gate_witness :
    getPostsByUserID [samplePost] sampleHex (Except.ok false) none false
      = ⟨404, none⟩ ∧
    getPostsByUserID [samplePost] sampleHex
      (checkUserExists (Except.ok (200,
        oracleWire (UserService.checkUserExists [] sampleHex none).body)))
      none false = ⟨404, none⟩ :=
  getPostsByUserID_gate [] sampleHex sampleOid [samplePost] none false rfl rfl

/-- C8: the HTTP request the Verification Client issues carries NO
deadline: `http.Get` uses the default client (zero `Timeout`) and the
handler's 5-second context is never attached to the request, contradicting
the specified 5-second bound on the whole check. -/
theorem checkUserExistsRequest_no_deadline :
    ∀ (base uid : String),
    (checkUserExistsRequest base uid).timeoutMillis = none ∧
    (checkUserExistsRequest base uid).url = base ++ "/users/exists/" ++ uid := by
  intro base uid
  exact ⟨rfl, rfl⟩

end PostService

namespace UserService

/-- C5: on a well-formed identifier the Oracle answers 200 — echoing the
identifier with `exists = false` (not 404) when no User document matches,
and with `exists = true` when at least one does. -/
theorem checkUserExists_count_semantics :
    ∀ (users : List User) (idParam : String) (oid : ObjectID),
    ObjectIDFromHex idParam = Except.ok oid →
    (countDocuments users oid = 0 →
      checkUserExists users idParam none = ⟨200, some (idParam, false)⟩) ∧
    (1 ≤ countDocuments users oid →
      checkUserExists users idParam none = ⟨200, some (idParam, true)⟩) := by
  intro users idParam oid hparse
  unfold checkUserExists
  rw [hparse]
  constructor
  · intro h0
    simp [h0]
  · intro h1
    have hpos : 0 < countDocuments users oid :=
      Nat.lt_of_lt_of_le Nat.zero_lt_one h1
    simp [hpos]

/-- Witness for C5: the empty user collection answers `exists = false`
with a 200, and a one-user collection answers `exists = true`. -/
theorem checkUserExists_count_semantics_witness :
    checkUserExists [] sampleHex none = ⟨200, some (sampleHex, false)⟩ ∧
    checkUserExists [⟨sampleOid, "Alice"⟩] sampleHex none
      = ⟨200, some (sampleHex, true)⟩ :=
  ⟨(checkUserExists_count_semantics [] sampleHex sampleOid rfl).1 rfl,
   (checkUserExists_count_semantics [⟨sampleOid, "Alice"⟩] sampleHex sampleOid
      rfl).2 (by decide)⟩

/-- C10: a successful user creation answers 201 with the stored record,
and the existence check called right afterwards on the identifier of that
record answers 200 with `exists = true`. -/
theorem createUser_then_checkUserExists :
    ∀ (users : List User) (bound : User) (newOid : ObjectID),
    (createUser users (Except.ok bound) newOid none).status = 201 ∧
    (createUser users (Except.ok bound) newOid none).body
      = some { bound with ID := newOid } ∧
    checkUserExists (createUser users (Except.ok bound) newOid none).store
      newOid.val none = ⟨200, some (newOid.val, true)⟩ := by
  intro users bound newOid
  refine ⟨rfl, rfl, ?_⟩
  have hparse : ObjectIDFromHex newOid.val = Except.ok newOid := by
    unfold ObjectIDFromHex
    rw [dif_pos newOid.2]
    rfl
  show checkUserExists (users ++ [{ bound with ID := newOid }]) newOid.val none
      = ⟨200, some (newOid.val, true)⟩
  unfold checkUserExists
  rw [hparse]
  have hpos : 0 < countDocuments (users ++ [{ bound with ID := newOid }]) newOid := by
    unfold countDocuments
    rw [List.filter_append]
    simp
  simp [hpos]

end UserService

/-- C7: an identifier that fails ObjectID parsing makes the existence
check, the user delete and the post delete each answer 400 with their
collection untouched, independently of the collection contents and of any
store outcome (no count, no delete is consulted). -/
theorem invalid_id_returns_400 :
    ∀ (idParam msg : String),
    ObjectIDFromHex idParam = Except.error msg →
    (∀ (users : List User) (countErr : Option String),
      UserService.checkUserExists users idParam countErr = ⟨400, none⟩) ∧
    (∀ (users : List User) (deleteErr : Option String),
      UserService.deleteUser users idParam deleteErr = ⟨400, users⟩) ∧
    (∀ (store : List Post) (deleteErr : Option String),
      PostService.deletePost store idParam deleteErr = ⟨400, store⟩) := by
  intro idParam msg h
  refine ⟨fun users ce => ?_, fun users de => ?_, fun store de => ?_⟩
  · unfold UserService.checkUserExists
    rw [h]
  · unfold UserService.deleteUser
    rw [h]
  · unfold PostService.deletePost
    rw [h]

/-- Witness for C7: the malformed identifier `"zzz"` gets 400 from all
three handlers, with each collection returned unchanged. -/
theorem invalid_id_returns_400_witness :
    UserService.checkUserExists [] "zzz" none = ⟨400, none⟩ ∧
    UserService.deleteUser [] "zzz" none = ⟨400, []⟩ ∧
    PostService.deletePost [samplePostStored] "zzz" (some "boom")
      = ⟨400, [samplePostStored]⟩ :=
  ⟨(invalid_id_returns_400 "zzz"
      "the provided hex string is not a valid ObjectID" rfl).1 [] none,
   (invalid_id_returns_400 "zzz"
      "the provided hex string is not a valid ObjectID" rfl).2.1 [] none,
   (invalid_id_returns_400 "zzz"
      "the provided hex string is not a valid ObjectID" rfl).2.2
      [samplePostStored] (some "boom")⟩
